import Mathlib

/-!
Verification of the Art Prints Storefront backend (src/main.py).

We shallowly embed the document model (Python dicts over a small value
universe), the `serialize_doc` helper, the `list_prints` handler and the
`create_order` handler.  The document store adapter (`database.py`:
`create_document`, `get_documents`) and the pydantic schemas
(`schemas.py`: `Order`, `OrderItem`) are not in `src/`, so those parts
are modelled from the spec and marked as such.
-/

namespace Storefront

/-- A Python value as it occurs in the stored documents: strings, numbers
(modelled as rationals), booleans, BSON ObjectIds (carrying their 24-char
hex string, kept lowercase as `bson` normalizes case) and `None`. -/
inductive Value where
  | str (s : String)
  | num (q : ℚ)
  | bool (b : Bool)
  | objId (s : String)
  | null
deriving DecidableEq, Repr

/-- A document: a Python dict as an insertion-ordered association list.
Python dicts have unique keys; theorems that need this assume
`(d.map Prod.fst).Nodup`. -/
abbrev Doc := List (String × Value)

/-- Keys of a document, in order. -/
def keysOf (d : Doc) : List String := d.map Prod.fst

/-- `d.get(k)` returning `none` when absent (dict lookup; first match,
which on a dict's unique keys is the only match). -/
def getKey? (d : Doc) (k : String) : Option Value :=
  match d with
  | [] => none
  | kv :: rest => if kv.1 = k then some kv.2 else getKey? rest k

/-- `d.get(k, default)`: lookup with a default. -/
def pyGet (d : Doc) (k : String) (default : Value) : Value :=
  (getKey? d k).getD default

/-- `d[k] = v`: update in place if the key exists, else append at the end
(Python dict insertion-order semantics). -/
def setKey (d : Doc) (k : String) (v : Value) : Doc :=
  if d.any (fun kv => kv.1 = k) then
    d.map (fun kv => if kv.1 = k then (k, v) else kv)
  else d ++ [(k, v)]

/-- `d.pop(k)`: remove the key (dicts hold each key once, so removing all
occurrences agrees on well-formed documents). -/
def popKey (d : Doc) (k : String) : Doc :=
  d.filter (fun kv => kv.1 ≠ k)

/-- Python truthiness of a value (`bool(v)`). -/
def pyTruthy : Value → Bool
  | .str s => s ≠ ""
  | .num q => q ≠ 0
  | .bool b => b
  | .objId _ => true
  | .null => false

/-- Python `str(v)` as used by `serialize_doc` and the f-strings of
`create_order`; `str` of an ObjectId is its hex string. -/
def pyStr : Value → String
  | .str s => s
  | .num q => toString q
  | .bool b => if b then "True" else "False"
  | .objId s => s
  | .null => "None"

/-- `float(v)` for the values a price field can hold; `none` marks the
values on which Python `float()` raises (e.g. `None`). -/
def pyFloat? : Value → Option ℚ
  | .num q => some q
  | .bool b => some (if b then 1 else 0)
  | _ => none

/-- Stringify an ObjectId value, leave anything else unchanged. -/
def stringifyVal : Value → Value
  | .objId s => .str s
  | v => v

/-- The `for k, v in list(d.items())` loop of `serialize_doc`: replace a
top-level ObjectId value by its string, keeping the key. -/
def stringifyObjId (kv : String × Value) : String × Value :=
  (kv.1, stringifyVal kv.2)

/-- `serialize_doc` (src/main.py lines 26-36): a falsy (empty) document is
returned as-is; otherwise work on a copy, rename `_id` to a stringified
`id`, then stringify any remaining top-level ObjectId values. -/
def serialize_doc (doc : Doc) : Doc :=
  if doc = [] then doc
  else
    let d :=
      match getKey? doc "_id" with
      | some v => setKey (popKey doc "_id") "id" (.str (pyStr v))
      | none => doc
    d.map stringifyObjId

/-! ## Listing prints -/

/-- Modelled from the spec: `get_documents` (from `database.py`, which is
not under `src/`) returns the documents of a collection matching a
Mongo-style equality filter; an empty filter matches every document. -/
def get_documents (coll : List Doc) (filt : List (String × Value)) : List Doc :=
  coll.filter (fun d => filt.all (fun kv => getKey? d kv.1 = some kv.2))

/-- The filter `list_prints` builds from the optional `featured` query
parameter (src/main.py lines 147-149). -/
def printsFilter : Option Bool → List (String × Value)
  | none => []
  | some b => [("featured", Value.bool b)]

/-- `list_prints` (src/main.py lines 145-151): serialize each catalog
document matching the filter. -/
def list_prints (catalog : List Doc) (featured : Option Bool) : List Doc :=
  (get_documents catalog (printsFilter featured)).map serialize_doc

/-! ## Order creation -/

/-- `OrderItem` — modelled from the spec (schemas.py is not under
`src/`): a print reference and a positive integer quantity. -/
structure OrderItem where
  print_id : String
  quantity : ℕ
deriving DecidableEq, Repr

/-- `CreateOrderRequest` (src/main.py lines 164-168). -/
structure CreateOrderRequest where
  customer_name : String
  customer_email : String
  shipping_address : String
  items : List OrderItem
deriving DecidableEq, Repr

/-- A normalized line item (src/main.py lines 190-195): resolved id,
catalog title, server-side price, requested quantity. -/
structure NormLine where
  print_id : String
  title : Value
  price : ℚ
  quantity : ℕ
deriving DecidableEq, Repr

/-- `Order` — modelled from the spec (schemas.py is not under `src/`):
customer fields, the normalized items, the derived total and a status
string.  The store-assigned identifier is left out: no claim mentions it. -/
structure OrderDoc where
  customer_name : String
  customer_email : String
  shipping_address : String
  items : List OrderItem
  total : ℚ
  status : String
deriving DecidableEq, Repr

/-- The document store: the `artprint` and `order` collections. -/
structure DB where
  artprint : List Doc
  order : List OrderDoc
deriving DecidableEq, Repr

/-- ASCII-lowercase a hex character (ObjectId strings compare
case-insensitively because `bson` parses them to bytes). -/
def lowerChar (c : Char) : Char :=
  if 'A' ≤ c && c ≤ 'Z' then Char.ofNat (c.toNat + 32) else c

/-- Lowercase a candidate ObjectId string. -/
def lowerHex (s : String) : String := ⟨s.data.map lowerChar⟩

/-- A character `bson.ObjectId` accepts in a 24-char hex string. -/
def isHexChar (c : Char) : Bool :=
  c.isDigit || ('a' ≤ c && c ≤ 'f') || ('A' ≤ c && c ≤ 'F')

/-- `ObjectId(s)` succeeds exactly on 24-character hex strings. -/
def isValidObjectId (s : String) : Bool :=
  s.data.length = 24 && s.data.all isHexChar

/-- The lookup of src/main.py lines 180-183: `ObjectId(item.print_id)`
inside `try/except` (a malformed id yields `doc = None`), then
`db.artprint.find_one` on the `_id` field. -/
def lookupPrint (catalog : List Doc) (pid : String) : Option Doc :=
  if isValidObjectId pid then
    catalog.find? (fun d => getKey? d "_id" = some (.objId (lowerHex pid)))
  else none

/-- Round half-to-even (Python `round` ties-to-even) to an integer. -/
def roundHalfEven (q : ℚ) : ℤ :=
  let f := ⌊q⌋
  let r := q - f
  if r < 1/2 then f
  else if 1/2 < r then f + 1
  else if f % 2 = 0 then f else f + 1

/-- `round(total, 2)`.  Python rounds IEEE doubles; we model the price
arithmetic exactly over ℚ with ties-to-even at the second decimal. -/
def round2 (q : ℚ) : ℚ := (roundHalfEven (q * 100) : ℚ) / 100

/-- One iteration of the item loop (src/main.py lines 179-195): look the
print up, fail 404 when absent, fail 400 when its `in_stock` field is
falsy (defaulting to `True` when missing), else take
`float(doc.get("price", 0))` and build the normalized line.  A price
value on which `float()` raises surfaces as an unhandled server error. -/
def processItem (catalog : List Doc) (item : OrderItem) :
    Except (ℕ × String) NormLine :=
  match lookupPrint catalog item.print_id with
  | none => .error (404, "Print not found: " ++ item.print_id)
  | some doc =>
    if !pyTruthy (pyGet doc "in_stock" (.bool true)) then
      .error (400, "Print out of stock: " ++ pyStr (pyGet doc "title" .null))
    else
      match pyFloat? (pyGet doc "price" (.num 0)) with
      | none => .error (500, "Internal Server Error")
      | some price =>
        .ok ⟨pyStr (pyGet doc "_id" .null), pyGet doc "title" .null,
             price, item.quantity⟩

/-- The item loop: accumulate `total += price * quantity` and append the
normalized line, stopping at the first failing item. -/
def validateItems (catalog : List Doc) :
    List OrderItem → ℚ → List NormLine → Except (ℕ × String) (ℚ × List NormLine)
  | [], total, acc => .ok (total, acc)
  | item :: rest, total, acc =>
    match processItem catalog item with
    | .error e => .error e
    | .ok line =>
      validateItems catalog rest (total + line.price * line.quantity)
        (acc ++ [line])

/-- `create_order` (src/main.py lines 171-214): reject an empty item
list with 400, validate and normalize the items against the catalog,
round the total to 2 decimals, build the Order with status `"pending"`
and persist it.  Persistence (`create_document` from `database.py`, not
under `src/`) is modelled from the spec as an insert into the `order`
collection that returns the stored document; the response pairs it with
the detailed normalized items.  The result's second component is the
store state after the call. -/
def create_order (db : DB) (payload : CreateOrderRequest) :
    Except (ℕ × String) (OrderDoc × List NormLine) × DB :=
  if payload.items.isEmpty then
    (.error (400, "Order must contain at least one item"), db)
  else
    match validateItems db.artprint payload.items 0 [] with
    | .error e => (.error e, db)
    | .ok (total, normalized) =>
      let order : OrderDoc :=
        { customer_name := payload.customer_name
          customer_email := payload.customer_email
          shipping_address := payload.shipping_address
          items := normalized.map (fun l => ⟨l.print_id, l.quantity⟩)
          total := round2 total
          status := "pending" }
      (.ok (order, normalized), { db with order := db.order ++ [order] })

/-- The print referenced by an item passes validation: it exists in the
catalog, its `in_stock` field is truthy (or missing, defaulting to
`True`), and `float()` accepts its price value. -/
def itemOk (catalog : List Doc) (it : OrderItem) : Prop :=
  ∃ doc, lookupPrint catalog it.print_id = some doc
    ∧ pyTruthy (pyGet doc "in_stock" (.bool true)) = true
    ∧ (pyFloat? (pyGet doc "price" (.num 0))).isSome = true

/-- The unit price the handler charges for an item:
`float(doc.get("price", 0))` of the referenced print (0 when there is no
such print; only used under `itemOk`). -/
def itemPrice (catalog : List Doc) (it : OrderItem) : ℚ :=
  match lookupPrint catalog it.print_id with
  | some doc => (pyFloat? (pyGet doc "price" (.num 0))).getD 0
  | none => 0

/-- The specified order total before rounding: the sum over the items of
the referenced print's current price times the quantity. -/
def itemsTotal (catalog : List Doc) (items : List OrderItem) : ℚ :=
  (items.map (fun it => itemPrice catalog it * it.quantity)).sum

/-! ## A small heap to observe mutation

`serialize_doc` starts with `d = \x7b**doc\x7d`; to state that the
argument object is never mutated we re-run its body over an explicit
heap of dictionary objects, where each Python dict operation is a store
update at the object's reference. -/

/-- The heap: dictionary objects addressed by their index. -/
abbrev Heap := List Doc

/-- Dereference a dictionary object. -/
def heapGet (h : Heap) (r : ℕ) : Doc := h.getD r []

/-- Overwrite a dictionary object in place. -/
def heapSet (h : Heap) (r : ℕ) (d : Doc) : Heap := h.set r d

/-- `serialize_doc` over the heap: a falsy argument is returned as-is;
otherwise a fresh object `d` is allocated as a copy, `_id` is popped and
a stringified `id` set on `d`, then every top-level ObjectId value of
`d` is stringified in place; the reference to `d` is returned. -/
def serialize_doc_heap (h : Heap) (r : ℕ) : Heap × ℕ :=
  let doc := heapGet h r
  if doc = [] then (h, r)
  else
    let rd := h.length
    let h1 := h ++ [doc]
    let h2 :=
      match getKey? doc "_id" with
      | some v => heapSet h1 rd (setKey (popKey doc "_id") "id" (.str (pyStr v)))
      | none => h1
    let h3 := heapSet h2 rd ((heapGet h2 rd).map stringifyObjId)
    (h3, rd)

/-! ## Concrete fixtures (mirroring the seeded sample catalog) -/

/-- An in-stock featured print, price 49. -/
def samplePrint1 : Doc :=
  [("_id", .objId "aaaaaaaaaaaaaaaaaaaaaaaa"), ("title", .str "Sunlit Dunes"),
   ("price", .num 49), ("in_stock", .bool true), ("featured", .bool true)]

/-- An out-of-stock print, price 59. -/
def samplePrint2 : Doc :=
  [("_id", .objId "bbbbbbbbbbbbbbbbbbbbbbbb"), ("title", .str "Coastal Mist"),
   ("price", .num 59), ("in_stock", .bool false), ("featured", .bool true)]

/-- An in-stock print with no `price` field. -/
def samplePrint3 : Doc :=
  [("_id", .objId "dddddddddddddddddddddddd"), ("title", .str "Botanical Study"),
   ("in_stock", .bool true)]

/-- A print with no `in_stock` field. -/
def samplePrint4 : Doc :=
  [("_id", .objId "eeeeeeeeeeeeeeeeeeeeeeee"), ("title", .str "City Geometry"),
   ("price", .num 45)]

/-- A store with the two fully-populated prints and no orders. -/
def sampleDB : DB := { artprint := [samplePrint1, samplePrint2], order := [] }

/-- An order request with fixed customer data and the given items. -/
def mkPayload (items : List OrderItem) : CreateOrderRequest :=
  { customer_name := "Ada", customer_email := "ada@example.com",
    shipping_address := "1 Infinite Loop", items := items }

/-! ## Association-list lemmas -/

theorem getKey?_nil (k : String) : getKey? [] k = none := rfl

theorem getKey?_cons (kv : String × Value) (rest : Doc) (k : String) :
    getKey? (kv :: rest) k = if kv.1 = k then some kv.2 else getKey? rest k :=
  rfl

theorem getKey?_append (d1 d2 : Doc) (k : String) :
    getKey? (d1 ++ d2) k = (getKey? d1 k).or (getKey? d2 k) := by
  induction d1 with
  | nil => simp [getKey?_nil]
  | cons kv rest ih =>
    by_cases hk : kv.1 = k <;> simp [getKey?_cons, hk, ih]

theorem getKey?_popKey_ne (d : Doc) (k t : String) (h : k ≠ t) :
    getKey? (popKey d t) k = getKey? d k := by
  induction d with
  | nil => rfl
  | cons kv rest ih =>
    unfold popKey at *
    rw [List.filter_cons]
    by_cases ht : kv.1 = t
    · rw [if_neg (by simp [ht]), getKey?_cons,
        if_neg (fun hkk : kv.1 = k => h (hkk.symm.trans ht))]
      exact ih
    · rw [if_pos (by simp [ht]), getKey?_cons, getKey?_cons]
      by_cases hk : kv.1 = k
      · rw [if_pos hk, if_pos hk]
      · rw [if_neg hk, if_neg hk]
        exact ih

theorem getKey?_popKey_self (d : Doc) (t : String) :
    getKey? (popKey d t) t = none := by
  induction d with
  | nil => rfl
  | cons kv rest ih =>
    unfold popKey at *
    rw [List.filter_cons]
    by_cases ht : kv.1 = t
    · rw [if_neg (by simp [ht])]
      exact ih
    · rw [if_pos (by simp [ht]), getKey?_cons, if_neg ht]
      exact ih

theorem getKey?_eq_none_iff (d : Doc) (k : String) :
    getKey? d k = none ↔ k ∉ keysOf d := by
  induction d with
  | nil => simp [getKey?_nil, keysOf]
  | cons kv rest ih =>
    by_cases hk : kv.1 = k
    · simp [getKey?_cons, keysOf, hk]
    · have hk2 : ¬k = kv.1 := fun hkk => hk hkk.symm
      simp [getKey?_cons, keysOf, hk, hk2, ih]

theorem getKey?_map_stringify (d : Doc) (k : String) :
    getKey? (d.map stringifyObjId) k = (getKey? d k).map stringifyVal := by
  induction d with
  | nil => rfl
  | cons kv rest ih =>
    by_cases hk : kv.1 = k <;>
      simp [getKey?_cons, stringifyObjId, hk, ih]

theorem setKey_of_not_mem (d : Doc) (k : String) (v : Value)
    (h : k ∉ keysOf d) : setKey d k v = d ++ [(k, v)] := by
  rw [setKey, if_neg]
  intro hany
  rcases List.any_eq_true.mp hany with ⟨kv, hmem, hk⟩
  exact h (List.mem_map.mpr ⟨kv, hmem, by simpa using hk⟩)

theorem keysOf_popKey_subset (d : Doc) (t k : String)
    (h : k ∈ keysOf (popKey d t)) : k ∈ keysOf d := by
  rcases List.mem_map.mp h with ⟨kv, hmem, hk⟩
  exact List.mem_map.mpr ⟨kv, (List.mem_filter.mp hmem).1, hk⟩

/-- `serialize_doc` on a non-empty document holding an `_id` and no
`id` key: drop `_id`, append the stringified `id`, stringify values. -/
theorem serialize_doc_eq_some (doc : Doc) (v : Value) (hne : doc ≠ [])
    (hid : "id" ∉ keysOf doc) (h : getKey? doc "_id" = some v) :
    serialize_doc doc
      = (popKey doc "_id" ++ [("id", Value.str (pyStr v))]).map stringifyObjId := by
  have hset := setKey_of_not_mem (popKey doc "_id") "id" (Value.str (pyStr v))
    (fun hmem => hid (keysOf_popKey_subset _ _ _ hmem))
  simp only [serialize_doc, if_neg hne, h, hset]

/-- `serialize_doc` on a non-empty document with no `_id` key only
stringifies the top-level ObjectId values. -/
theorem serialize_doc_eq_none (doc : Doc) (hne : doc ≠ [])
    (h : getKey? doc "_id" = none) :
    serialize_doc doc = doc.map stringifyObjId := by
  simp only [serialize_doc, if_neg hne, h]

/-! ## Order-validation lemmas -/

/-- A validating item is processed into its normalized line. -/
theorem processItem_ok (catalog : List Doc) (it : OrderItem)
    (h : itemOk catalog it) :
    ∃ line, processItem catalog it = .ok line
      ∧ line.price = itemPrice catalog it
      ∧ line.quantity = it.quantity := by
  obtain ⟨doc, hfind, hstock, hprice⟩ := h
  obtain ⟨q, hq⟩ := Option.isSome_iff_exists.mp hprice
  refine ⟨⟨pyStr (pyGet doc "_id" .null), pyGet doc "title" .null, q,
    it.quantity⟩, ?_, ?_, rfl⟩
  · simp [processItem, hfind, hstock, hq]
  · simp [itemPrice, hfind, hq]

/-- The item loop succeeds on a fully validating list, accumulating the
per-item price sum onto the running total and appending the lines. -/
theorem validateItems_ok (catalog : List Doc) (items : List OrderItem)
    (hok : ∀ it ∈ items, itemOk catalog it) :
    ∀ (total : ℚ) (acc : List NormLine),
    ∃ lines, validateItems catalog items total acc
      = .ok (total + itemsTotal catalog items, acc ++ lines) := by
  induction items with
  | nil =>
    intro total acc
    exact ⟨[], by simp [validateItems, itemsTotal]⟩
  | cons it rest ih =>
    intro total acc
    obtain ⟨line, hline, hprice, hqty⟩ :=
      processItem_ok catalog it (hok it (by simp))
    obtain ⟨lines, hrec⟩ :=
      ih (fun i hi => hok i (by simp [hi]))
        (total + line.price * line.quantity) (acc ++ [line])
    refine ⟨line :: lines, ?_⟩
    rw [validateItems, hline]
    show validateItems catalog rest (total + line.price * line.quantity)
      (acc ++ [line]) = _
    rw [hrec]
    have ht : total + line.price * (line.quantity : ℚ)
        + itemsTotal catalog rest = total + itemsTotal catalog (it :: rest) := by
      rw [hprice, hqty]
      simp [itemsTotal]
      ring
    rw [ht, List.append_assoc]
    rfl

/-- The item loop stops with the error of the first failing item when
all items before it validate. -/
theorem validateItems_err (catalog : List Doc) (pre post : List OrderItem)
    (bad : OrderItem) (e : ℕ × String)
    (hpre : ∀ it ∈ pre, itemOk catalog it)
    (hbad : processItem catalog bad = .error e) :
    ∀ (total : ℚ) (acc : List NormLine),
    validateItems catalog (pre ++ bad :: post) total acc = .error e := by
  induction pre with
  | nil =>
    intro total acc
    rw [List.nil_append, validateItems, hbad]
  | cons it rest ih =>
    intro total acc
    obtain ⟨line, hline, -, -⟩ := processItem_ok catalog it (hpre it (by simp))
    rw [List.cons_append, validateItems, hline]
    exact ih (fun i hi => hpre i (by simp [hi])) _ _

/-- `create_order` on a fully validating non-empty item list: it
succeeds, the persisted order carries the rounded specified total and
status `"pending"`, it is appended to the `order` collection, and the
catalog is untouched. -/
theorem create_order_ok_core (db : DB) (p : CreateOrderRequest)
    (hne : p.items ≠ [])
    (hok : ∀ it ∈ p.items, itemOk db.artprint it) :
    ∃ saved lines,
      (create_order db p).1 = .ok (saved, lines)
      ∧ saved.total = round2 (itemsTotal db.artprint p.items)
      ∧ saved.status = "pending"
      ∧ (create_order db p).2.order = db.order ++ [saved] := by
  obtain ⟨lines, hval⟩ := validateItems_ok db.artprint p.items hok 0 []
  have hval' : validateItems db.artprint p.items 0 []
      = .ok (itemsTotal db.artprint p.items, lines) := by
    simpa using hval
  have hif : p.items.isEmpty = false := by
    simp [List.isEmpty_eq_true, hne]
  refine ⟨⟨p.customer_name, p.customer_email, p.shipping_address,
    lines.map (fun l => ⟨l.print_id, l.quantity⟩),
    round2 (itemsTotal db.artprint p.items), "pending"⟩, lines, ?_, rfl, rfl, ?_⟩
  · simp [create_order, hif, hval']
  · simp [create_order, hif, hval']

/-- `create_order` on an item list whose first failing item yields the
error `e`: the request fails with `e` and the store is untouched. -/
theorem create_order_err_core (db : DB) (p : CreateOrderRequest)
    (pre post : List OrderItem) (bad : OrderItem) (e : ℕ × String)
    (hitems : p.items = pre ++ bad :: post)
    (hpre : ∀ it ∈ pre, itemOk db.artprint it)
    (hbad : processItem db.artprint bad = .error e) :
    (create_order db p).1 = .error e ∧ (create_order db p).2 = db := by
  have hval : validateItems db.artprint p.items 0 [] = .error e := by
    rw [hitems]
    exact validateItems_err db.artprint pre post bad e hpre hbad 0 []
  have hif : p.items.isEmpty = false := by
    simp [List.isEmpty_eq_true, hitems]
  constructor <;> simp [create_order, hif, hval]

/-! ## Heap lemmas -/

theorem heapGet_append_lt (h : Heap) (d : Doc) (r : ℕ) (hr : r < h.length) :
    heapGet (h ++ [d]) r = heapGet h r :=
  List.getD_append _ _ _ _ hr

theorem heapGet_append_self (h : Heap) (d : Doc) :
    heapGet (h ++ [d]) h.length = d := by
  rw [heapGet, List.getD_append_right _ _ _ _ (le_refl _)]
  simp

theorem heapGet_set_ne (h : Heap) (n r : ℕ) (d : Doc) (hne : n ≠ r) :
    heapGet (heapSet h n d) r = heapGet h r := by
  rw [heapGet, heapSet, heapGet, List.getD_eq_getElem?_getD,
    List.getElem?_set_ne hne, List.getD_eq_getElem?_getD]

theorem heapGet_set_eq (h : Heap) (n : ℕ) (d : Doc) (hn : n < h.length) :
    heapGet (heapSet h n d) n = d := by
  rw [heapGet, heapSet, List.getD_eq_getElem?_getD,
    List.getElem?_set_eq_of_lt _ hn]
  rfl

/-! ## The claims -/

/-- C1: for every non-empty item list all of whose items reference
existing, in-stock prints (with a `float()`-accepted price value),
`create_order` persists an Order whose total is the sum of each
referenced print's current catalog price times the quantity, rounded
ties-to-even to 2 decimals, with status `"pending"`. -/
theorem claim1_create_order_total_pending (db : DB) (p : CreateOrderRequest)
    (hne : p.items ≠ [])
    (hok : ∀ it ∈ p.items, itemOk db.artprint it) :
    ∃ saved lines,
      (create_order db p).1 = .ok (saved, lines)
      ∧ saved.total = round2 (itemsTotal db.artprint p.items)
      ∧ saved.status = "pending"
      ∧ (create_order db p).2.order = db.order ++ [saved] :=
  create_order_ok_core db p hne hok

/-- C2: a request with an empty items list is rejected with a 400 error
reading "Order must contain at least one item" and the store is
untouched. -/
theorem claim2_empty_items_rejected (db : DB) (p : CreateOrderRequest)
    (h : p.items = []) :
    (create_order db p).1 = .error (400, "Order must contain at least one item")
    ∧ (create_order db p).2 = db := by
  constructor <;> simp [create_order, h]

/-- C3 (amended): when the first validation-failing item of the request
has a malformed or unmatched print_id — every item before it references
an existing in-stock print — `create_order` fails with a 404 error
naming that print_id and the store is untouched. -/
theorem claim3_missing_print_not_found (db : DB) (p : CreateOrderRequest)
    (pre post : List OrderItem) (bad : OrderItem)
    (hitems : p.items = pre ++ bad :: post)
    (hpre : ∀ it ∈ pre, itemOk db.artprint it)
    (hbad : lookupPrint db.artprint bad.print_id = none) :
    (create_order db p).1 = .error (404, "Print not found: " ++ bad.print_id)
    ∧ (create_order db p).2 = db :=
  create_order_err_core db p pre post bad _ hitems hpre
    (by simp [processItem, hbad])

/-- C4 (amended): when the first validation-failing item of the request
references an existing print that is out of stock — every item before it
references an existing in-stock print — `create_order` fails with a 400
error naming that print's title and the store is untouched. -/
theorem claim4_out_of_stock_rejected (db : DB) (p : CreateOrderRequest)
    (pre post : List OrderItem) (bad : OrderItem) (doc : Doc)
    (hitems : p.items = pre ++ bad :: post)
    (hpre : ∀ it ∈ pre, itemOk db.artprint it)
    (hfind : lookupPrint db.artprint bad.print_id = some doc)
    (hstock : pyTruthy (pyGet doc "in_stock" (.bool true)) = false) :
    (create_order db p).1
      = .error (400, "Print out of stock: " ++ pyStr (pyGet doc "title" .null))
    ∧ (create_order db p).2 = db :=
  create_order_err_core db p pre post bad _ hitems hpre
    (by simp [processItem, hfind, hstock])

/-- C5 (amended): on a non-empty document with no pre-existing `id`
field, `serialize_doc` removes `_id`, exposes its stringified value
under `id`, and keeps every other field — with ObjectId-typed values
replaced by their string form and all other values unchanged. -/
theorem claim5_serialize_doc_fields (doc : Doc) (hne : doc ≠ [])
    (hid : "id" ∉ keysOf doc) :
    getKey? (serialize_doc doc) "_id" = none
    ∧ (∀ v, getKey? doc "_id" = some v →
        getKey? (serialize_doc doc) "id" = some (.str (pyStr v)))
    ∧ (∀ k v, k ≠ "_id" → getKey? doc k = some v →
        getKey? (serialize_doc doc) k = some (stringifyVal v)) := by
  cases hmid : getKey? doc "_id" with
  | none =>
    rw [serialize_doc_eq_none doc hne hmid]
    refine ⟨?_, ?_, ?_⟩
    · rw [getKey?_map_stringify, hmid]
      rfl
    · intro v hv
      cases hv
    · intro k v hk hv
      rw [getKey?_map_stringify, hv]
      rfl
  | some w =>
    rw [serialize_doc_eq_some doc w hne hid hmid]
    have hpop_id : getKey? (popKey doc "_id") "id" = none := by
      rw [getKey?_popKey_ne _ _ _ (by decide)]
      exact (getKey?_eq_none_iff doc "id").mpr hid
    refine ⟨?_, ?_, ?_⟩
    · rw [getKey?_map_stringify, getKey?_append, getKey?_popKey_self]
      rfl
    · intro v hv
      injection hv with hv
      subst hv
      rw [getKey?_map_stringify, getKey?_append, hpop_id]
      rfl
    · intro k v hk hv
      rw [getKey?_map_stringify, getKey?_append,
        getKey?_popKey_ne _ _ _ hk, hv]
      rfl

/-- C6: with `featured=true` the endpoint returns exactly the serialized
catalog documents whose `featured` field equals `true`; with no filter
it returns every catalog document, serialized. -/
theorem claim6_list_prints_featured (catalog : List Doc) :
    list_prints catalog (some true)
      = (catalog.filter
          (fun d => getKey? d "featured" = some (.bool true))).map serialize_doc
    ∧ list_prints catalog none = catalog.map serialize_doc := by
  constructor
  · unfold list_prints get_documents printsFilter
    congr 1
    apply List.filter_congr
    intro d _
    simp
  · unfold list_prints get_documents printsFilter
    simp

/-- C7: `create_order` never writes to the `artprint` catalog: whatever
the request and outcome, the catalog after the call is the catalog
before it. -/
theorem claim7_catalog_unchanged (db : DB) (p : CreateOrderRequest) :
    (create_order db p).2.artprint = db.artprint := by
  unfold create_order
  split
  · rfl
  · split <;> rfl

/-- C8: a referenced in-stock print with no `price` field is priced at
0: the normalized line records price 0 and the item leaves the running
total unchanged. -/
theorem claim8_price_defaults_zero (catalog : List Doc) (it : OrderItem)
    (doc : Doc) (rest : List OrderItem) (total : ℚ) (acc : List NormLine)
    (hfind : lookupPrint catalog it.print_id = some doc)
    (hstock : pyTruthy (pyGet doc "in_stock" (.bool true)) = true)
    (hprice : getKey? doc "price" = none) :
    processItem catalog it
      = .ok ⟨pyStr (pyGet doc "_id" Value.null), pyGet doc "title" Value.null,
          0, it.quantity⟩
    ∧ validateItems catalog (it :: rest) total acc
      = validateItems catalog rest total
          (acc ++ [⟨pyStr (pyGet doc "_id" Value.null),
            pyGet doc "title" Value.null, 0, it.quantity⟩]) := by
  have hpg : pyGet doc "price" (.num 0) = .num 0 := by
    simp [pyGet, hprice]
  have h1 : processItem catalog it
      = .ok ⟨pyStr (pyGet doc "_id" Value.null), pyGet doc "title" Value.null,
          0, it.quantity⟩ := by
    simp [processItem, hfind, hstock, hpg, pyFloat?]
  refine ⟨h1, ?_⟩
  rw [validateItems, h1]
  show validateItems catalog rest (total + 0 * (it.quantity : ℚ)) _ = _
  have hz : total + 0 * (it.quantity : ℚ) = total := by ring
  rw [hz]

/-- C9: a catalog print with no `in_stock` field at all counts as in
stock — the stock check sees the default `True` — so an order whose
items all reference such (existing) prints is persisted, not rejected. -/
theorem claim9_missing_in_stock_treated_in_stock (db : DB)
    (p : CreateOrderRequest) (hne : p.items ≠ [])
    (hok : ∀ it ∈ p.items, ∃ doc,
      lookupPrint db.artprint it.print_id = some doc
      ∧ getKey? doc "in_stock" = none
      ∧ (pyFloat? (pyGet doc "price" (.num 0))).isSome = true) :
    (∀ doc : Doc, getKey? doc "in_stock" = none →
      pyTruthy (pyGet doc "in_stock" (.bool true)) = true)
    ∧ ∃ saved lines,
      (create_order db p).1 = .ok (saved, lines)
      ∧ (create_order db p).2.order = db.order ++ [saved] := by
  have hdefault : ∀ doc : Doc, getKey? doc "in_stock" = none →
      pyTruthy (pyGet doc "in_stock" (.bool true)) = true := by
    intro doc hd
    simp [pyGet, hd, pyTruthy]
  have hok' : ∀ it ∈ p.items, itemOk db.artprint it := by
    intro it hit
    obtain ⟨doc, hfind, hstk, hpr⟩ := hok it hit
    exact ⟨doc, hfind, hdefault doc hstk, hpr⟩
  obtain ⟨saved, lines, h1, -, -, h4⟩ := create_order_ok_core db p hne hok'
  exact ⟨hdefault, saved, lines, h1, h4⟩

/-- C10: `serialize_doc` never mutates its argument object: run over an
explicit heap, the argument's slot is unchanged by the call, a falsy
(empty) input is returned as-is (same reference), a non-empty input
yields a freshly allocated reference, and the returned object is the
serialized copy of the input. -/
theorem claim10_serialize_doc_no_mutation (h : Heap) (r : ℕ)
    (hr : r < h.length) :
    heapGet (serialize_doc_heap h r).1 r = heapGet h r
    ∧ (heapGet h r = [] → (serialize_doc_heap h r).2 = r)
    ∧ (heapGet h r ≠ [] → (serialize_doc_heap h r).2 = h.length)
    ∧ heapGet (serialize_doc_heap h r).1 (serialize_doc_heap h r).2
        = serialize_doc (heapGet h r) := by
  by_cases hd : heapGet h r = []
  · have he : serialize_doc_heap h r = (h, r) := by
      simp [serialize_doc_heap, hd]
    rw [he]
    refine ⟨rfl, fun _ => rfl, fun hne => absurd hd hne, ?_⟩
    rw [hd]
    rfl
  · have hner : h.length ≠ r := fun hh => absurd hh.symm (Nat.ne_of_lt hr)
    cases hmid : getKey? (heapGet h r) "_id" with
    | some v =>
      have e2 : heapGet (heapSet (h ++ [heapGet h r]) h.length
          (setKey (popKey (heapGet h r) "_id") "id" (.str (pyStr v)))) h.length
          = setKey (popKey (heapGet h r) "_id") "id" (.str (pyStr v)) :=
        heapGet_set_eq _ _ _ (by simp)
      have he : serialize_doc_heap h r
          = (heapSet (heapSet (h ++ [heapGet h r]) h.length
              (setKey (popKey (heapGet h r) "_id") "id" (.str (pyStr v))))
              h.length
              ((setKey (popKey (heapGet h r) "_id") "id"
                (.str (pyStr v))).map stringifyObjId),
             h.length) := by
        simp only [serialize_doc_heap, if_neg hd, hmid, e2]
      rw [he]
      refine ⟨?_, fun hh => absurd hh hd, fun _ => rfl, ?_⟩
      · rw [heapGet_set_ne _ _ _ _ hner, heapGet_set_ne _ _ _ _ hner,
          heapGet_append_lt _ _ _ hr]
      · rw [heapGet_set_eq _ _ _ (by simp [heapSet])]
        rw [serialize_doc, if_neg hd, hmid]
    | none =>
      have he : serialize_doc_heap h r
          = (heapSet (h ++ [heapGet h r]) h.length
              ((heapGet h r).map stringifyObjId), h.length) := by
        simp only [serialize_doc_heap, if_neg hd, hmid, heapGet_append_self]
      rw [he]
      refine ⟨?_, fun hh => absurd hh hd, fun _ => rfl, ?_⟩
      · rw [heapGet_set_ne _ _ _ _ hner, heapGet_append_lt _ _ _ hr]
      · rw [heapGet_set_eq _ _ _ (by simp)]
        rw [serialize_doc, if_neg hd, hmid]

/-! ## Witnesses and counterexamples -/

/-- C1 witness: the order for 2 copies of the 49-priced print succeeds
with total `round2 (49 * 2)` and status `"pending"`. -/
theorem claim1_create_order_total_pending_witness :
    (mkPayload [⟨"aaaaaaaaaaaaaaaaaaaaaaaa", 2⟩]).items ≠ []
    ∧ (∀ it ∈ (mkPayload [⟨"aaaaaaaaaaaaaaaaaaaaaaaa", 2⟩]).items,
        itemOk sampleDB.artprint it)
    ∧ ∃ saved lines,
        (create_order sampleDB (mkPayload [⟨"aaaaaaaaaaaaaaaaaaaaaaaa", 2⟩])).1
          = .ok (saved, lines)
        ∧ saved.total = round2 (itemsTotal sampleDB.artprint
            (mkPayload [⟨"aaaaaaaaaaaaaaaaaaaaaaaa", 2⟩]).items)
        ∧ saved.status = "pending"
        ∧ (create_order sampleDB
            (mkPayload [⟨"aaaaaaaaaaaaaaaaaaaaaaaa", 2⟩])).2.order
          = sampleDB.order ++ [saved] := by
  have hok : ∀ it ∈ (mkPayload [⟨"aaaaaaaaaaaaaaaaaaaaaaaa", 2⟩]).items,
      itemOk sampleDB.artprint it := by
    intro it hit
    have heq : it = ⟨"aaaaaaaaaaaaaaaaaaaaaaaa", 2⟩ := by
      simpa [mkPayload] using hit
    subst heq
    exact ⟨samplePrint1, by decide, by decide, by decide⟩
  exact ⟨by decide, hok,
    claim1_create_order_total_pending sampleDB _ (by decide) hok⟩

/-- C2 witness: the empty-items request is rejected and the store kept. -/
theorem claim2_empty_items_rejected_witness :
    (mkPayload []).items = []
    ∧ (create_order sampleDB (mkPayload [])).1
        = .error (400, "Order must contain at least one item")
    ∧ (create_order sampleDB (mkPayload [])).2 = sampleDB := by
  have h := claim2_empty_items_rejected sampleDB (mkPayload []) rfl
  exact ⟨rfl, h.1, h.2⟩

/-- C3 counterexample: a request that does contain an unknown print
reference (second item) fails with the 400 out-of-stock error of its
first item, not with the 404 error naming the unknown reference — the
claim's universal 404 guarantee is false as stated. -/
theorem claim3_missing_print_not_found_cex :
    (⟨"cccccccccccccccccccccccc", 1⟩ : OrderItem)
      ∈ (mkPayload [⟨"bbbbbbbbbbbbbbbbbbbbbbbb", 1⟩,
          ⟨"cccccccccccccccccccccccc", 1⟩]).items
    ∧ lookupPrint sampleDB.artprint "cccccccccccccccccccccccc" = none
    ∧ (create_order sampleDB (mkPayload [⟨"bbbbbbbbbbbbbbbbbbbbbbbb", 1⟩,
        ⟨"cccccccccccccccccccccccc", 1⟩])).1
      = .error (400, "Print out of stock: Coastal Mist")
    ∧ (create_order sampleDB (mkPayload [⟨"bbbbbbbbbbbbbbbbbbbbbbbb", 1⟩,
        ⟨"cccccccccccccccccccccccc", 1⟩])).1
      ≠ .error (404, "Print not found: cccccccccccccccccccccccc") := by
  have hres : (create_order sampleDB (mkPayload [⟨"bbbbbbbbbbbbbbbbbbbbbbbb", 1⟩,
      ⟨"cccccccccccccccccccccccc", 1⟩])).1
      = .error (400, "Print out of stock: Coastal Mist") := by rfl
  refine ⟨by decide, by decide, hres, ?_⟩
  rw [hres]
  simp

/-- C3 witness: an order whose only item references an unknown id gets
the 404 error naming it, and the store is kept. -/
theorem claim3_missing_print_not_found_witness :
    (mkPayload [⟨"cccccccccccccccccccccccc", 1⟩]).items
      = [] ++ (⟨"cccccccccccccccccccccccc", 1⟩ : OrderItem) :: []
    ∧ (∀ it ∈ ([] : List OrderItem), itemOk sampleDB.artprint it)
    ∧ lookupPrint sampleDB.artprint "cccccccccccccccccccccccc" = none
    ∧ (create_order sampleDB (mkPayload [⟨"cccccccccccccccccccccccc", 1⟩])).1
        = .error (404, "Print not found: " ++ "cccccccccccccccccccccccc")
    ∧ (create_order sampleDB (mkPayload [⟨"cccccccccccccccccccccccc", 1⟩])).2
        = sampleDB := by
  have hpre : ∀ it ∈ ([] : List OrderItem), itemOk sampleDB.artprint it :=
    fun it hit => absurd hit (List.not_mem_nil it)
  have h := claim3_missing_print_not_found sampleDB
    (mkPayload [⟨"cccccccccccccccccccccccc", 1⟩]) [] []
    ⟨"cccccccccccccccccccccccc", 1⟩ rfl hpre (by decide)
  exact ⟨rfl, hpre, by decide, h.1, h.2⟩

/-- C4 counterexample: a request that does contain an out-of-stock item
(second) fails with the 404 error of its first, unknown item, not with
the 400 error naming the out-of-stock title — the claim's universal 400
guarantee is false as stated. -/
theorem claim4_out_of_stock_rejected_cex :
    (⟨"bbbbbbbbbbbbbbbbbbbbbbbb", 1⟩ : OrderItem)
      ∈ (mkPayload [⟨"cccccccccccccccccccccccc", 1⟩,
          ⟨"bbbbbbbbbbbbbbbbbbbbbbbb", 1⟩]).items
    ∧ lookupPrint sampleDB.artprint "bbbbbbbbbbbbbbbbbbbbbbbb"
        = some samplePrint2
    ∧ pyTruthy (pyGet samplePrint2 "in_stock" (.bool true)) = false
    ∧ (create_order sampleDB (mkPayload [⟨"cccccccccccccccccccccccc", 1⟩,
        ⟨"bbbbbbbbbbbbbbbbbbbbbbbb", 1⟩])).1
      = .error (404, "Print not found: cccccccccccccccccccccccc")
    ∧ (create_order sampleDB (mkPayload [⟨"cccccccccccccccccccccccc", 1⟩,
        ⟨"bbbbbbbbbbbbbbbbbbbbbbbb", 1⟩])).1
      ≠ .error (400, "Print out of stock: Coastal Mist") := by
  have hres : (create_order sampleDB (mkPayload [⟨"cccccccccccccccccccccccc", 1⟩,
      ⟨"bbbbbbbbbbbbbbbbbbbbbbbb", 1⟩])).1
      = .error (404, "Print not found: cccccccccccccccccccccccc") := by rfl
  refine ⟨by decide, by decide, by decide, hres, ?_⟩
  rw [hres]
  simp

/-- C4 witness: an order whose only item references the out-of-stock
print gets the 400 error naming its title, and the store is kept. -/
theorem claim4_out_of_stock_rejected_witness :
    (mkPayload [⟨"bbbbbbbbbbbbbbbbbbbbbbbb", 1⟩]).items
      = [] ++ (⟨"bbbbbbbbbbbbbbbbbbbbbbbb", 1⟩ : OrderItem) :: []
    ∧ (∀ it ∈ ([] : List OrderItem), itemOk sampleDB.artprint it)
    ∧ lookupPrint sampleDB.artprint "bbbbbbbbbbbbbbbbbbbbbbbb"
        = some samplePrint2
    ∧ pyTruthy (pyGet samplePrint2 "in_stock" (.bool true)) = false
    ∧ (create_order sampleDB (mkPayload [⟨"bbbbbbbbbbbbbbbbbbbbbbbb", 1⟩])).1
        = .error (400, "Print out of stock: "
            ++ pyStr (pyGet samplePrint2 "title" .null))
    ∧ (create_order sampleDB (mkPayload [⟨"bbbbbbbbbbbbbbbbbbbbbbbb", 1⟩])).2
        = sampleDB := by
  have hpre : ∀ it ∈ ([] : List OrderItem), itemOk sampleDB.artprint it :=
    fun it hit => absurd hit (List.not_mem_nil it)
  have h := claim4_out_of_stock_rejected sampleDB
    (mkPayload [⟨"bbbbbbbbbbbbbbbbbbbbbbbb", 1⟩]) [] []
    ⟨"bbbbbbbbbbbbbbbbbbbbbbbb", 1⟩ samplePrint2 rfl hpre
    (by decide) (by decide)
  exact ⟨rfl, hpre, by decide, by decide, h.1, h.2⟩

/-- C5 counterexample: a document with an ObjectId-valued field besides
`_id` does not keep that field's value unchanged — `serialize_doc`
stringifies it — so the claim is false as stated. -/
theorem claim5_serialize_doc_fields_cex :
    serialize_doc [("_id", .objId "aaaaaaaaaaaaaaaaaaaaaaaa"),
        ("artist_ref", .objId "bbbbbbbbbbbbbbbbbbbbbbbb")]
      = [("artist_ref", .str "bbbbbbbbbbbbbbbbbbbbbbbb"),
         ("id", .str "aaaaaaaaaaaaaaaaaaaaaaaa")]
    ∧ getKey? (serialize_doc [("_id", .objId "aaaaaaaaaaaaaaaaaaaaaaaa"),
        ("artist_ref", .objId "bbbbbbbbbbbbbbbbbbbbbbbb")]) "artist_ref"
      ≠ some (.objId "bbbbbbbbbbbbbbbbbbbbbbbb") :=
  ⟨by decide, by decide⟩

/-- C5 witness: the amended field-by-field description holds on a
seeded sample print. -/
theorem claim5_serialize_doc_fields_witness :
    samplePrint1 ≠ []
    ∧ "id" ∉ keysOf samplePrint1
    ∧ (getKey? (serialize_doc samplePrint1) "_id" = none
      ∧ (∀ v, getKey? samplePrint1 "_id" = some v →
          getKey? (serialize_doc samplePrint1) "id" = some (.str (pyStr v)))
      ∧ (∀ k v, k ≠ "_id" → getKey? samplePrint1 k = some v →
          getKey? (serialize_doc samplePrint1) k = some (stringifyVal v))) :=
  ⟨by decide, by decide,
    claim5_serialize_doc_fields samplePrint1 (by decide) (by decide)⟩

/-- C8 witness: the in-stock print with no price field yields a
normalized line with price 0 and leaves the running total unchanged. -/
theorem claim8_price_defaults_zero_witness :
    lookupPrint [samplePrint3] "dddddddddddddddddddddddd" = some samplePrint3
    ∧ pyTruthy (pyGet samplePrint3 "in_stock" (.bool true)) = true
    ∧ getKey? samplePrint3 "price" = none
    ∧ (processItem [samplePrint3] ⟨"dddddddddddddddddddddddd", 3⟩
        = .ok ⟨pyStr (pyGet samplePrint3 "_id" Value.null),
            pyGet samplePrint3 "title" Value.null, 0, 3⟩
      ∧ validateItems [samplePrint3] [⟨"dddddddddddddddddddddddd", 3⟩] 0 []
        = validateItems [samplePrint3] [] 0
            ([] ++ [⟨pyStr (pyGet samplePrint3 "_id" Value.null),
              pyGet samplePrint3 "title" Value.null, 0, 3⟩])) :=
  ⟨by decide, by decide, by decide,
    claim8_price_defaults_zero [samplePrint3] ⟨"dddddddddddddddddddddddd", 3⟩
      samplePrint3 [] 0 [] (by decide) (by decide) (by decide)⟩

/-- C9 witness: an order referencing only the print with no `in_stock`
field succeeds and is persisted. -/
theorem claim9_missing_in_stock_treated_in_stock_witness :
    (mkPayload [⟨"eeeeeeeeeeeeeeeeeeeeeeee", 1⟩]).items ≠ []
    ∧ (∀ it ∈ (mkPayload [⟨"eeeeeeeeeeeeeeeeeeeeeeee", 1⟩]).items, ∃ doc,
        lookupPrint ({ artprint := [samplePrint4], order := [] } : DB).artprint
            it.print_id = some doc
        ∧ getKey? doc "in_stock" = none
        ∧ (pyFloat? (pyGet doc "price" (.num 0))).isSome = true)
    ∧ ((∀ doc : Doc, getKey? doc "in_stock" = none →
        pyTruthy (pyGet doc "in_stock" (.bool true)) = true)
      ∧ ∃ saved lines,
        (create_order ({ artprint := [samplePrint4], order := [] } : DB)
          (mkPayload [⟨"eeeeeeeeeeeeeeeeeeeeeeee", 1⟩])).1 = .ok (saved, lines)
        ∧ (create_order ({ artprint := [samplePrint4], order := [] } : DB)
            (mkPayload [⟨"eeeeeeeeeeeeeeeeeeeeeeee", 1⟩])).2.order
          = ({ artprint := [samplePrint4], order := [] } : DB).order
            ++ [saved]) := by
  have hok : ∀ it ∈ (mkPayload [⟨"eeeeeeeeeeeeeeeeeeeeeeee", 1⟩]).items, ∃ doc,
      lookupPrint ({ artprint := [samplePrint4], order := [] } : DB).artprint
          it.print_id = some doc
      ∧ getKey? doc "in_stock" = none
      ∧ (pyFloat? (pyGet doc "price" (.num 0))).isSome = true := by
    intro it hit
    have heq : it = ⟨"eeeeeeeeeeeeeeeeeeeeeeee", 1⟩ := by
      simpa [mkPayload] using hit
    subst heq
    exact ⟨samplePrint4, by decide, by decide, by decide⟩
  exact ⟨by decide, hok,
    claim9_missing_in_stock_treated_in_stock _ _ (by decide) hok⟩

/-- C10 witness: serializing a stored sample print leaves its heap slot
unchanged and returns a fresh serialized copy. -/
theorem claim10_serialize_doc_no_mutation_witness :
    0 < ([samplePrint1] : Heap).length
    ∧ (heapGet (serialize_doc_heap [samplePrint1] 0).1 0
        = heapGet [samplePrint1] 0
      ∧ (heapGet [samplePrint1] 0 = [] →
          (serialize_doc_heap [samplePrint1] 0).2 = 0)
      ∧ (heapGet [samplePrint1] 0 ≠ [] →
          (serialize_doc_heap [samplePrint1] 0).2
            = ([samplePrint1] : Heap).length)
      ∧ heapGet (serialize_doc_heap [samplePrint1] 0).1
          (serialize_doc_heap [samplePrint1] 0).2
        = serialize_doc (heapGet [samplePrint1] 0)) :=
  ⟨by decide, claim10_serialize_doc_no_mutation [samplePrint1] 0 (by decide)⟩

end Storefront
